import Mathlib

/-!
Shallow embedding of `app.py` from the call-congress service.

The embedding follows the Python source line by line:

* Python dicts of request/flow parameters become the `Request` and
  `Params` structures.  The `zipcode` entry of a params dict can be
  key-absent (after `del params['zipcode']`), present with value `None`,
  or present with a string; it is modelled as `Option (Option String)`
  (outer `none` = key deleted, inner `none` = Python `None`).
* External collaborators are passed in as explicit arguments:
  `get_campaign` (campaign directory), `locate` (zip → member ids,
  `data.locate_member_ids`), `legislators` (the roster),
  `decode` (the `json.loads` payload decoder for special-call tokens)
  and a draw index `k` standing for the state of `random.choice`
  (`randomChoice pool k` picks `pool[k % len pool]`; Python raises on an
  empty pool, so every statement about it assumes a non-empty pool).
* A twiml response document becomes a `List Verb`; `play_or_say`
  appends a `Verb.msg` carrying the template and its keyword
  arguments (the `play`-vs-`say` dispatch on the rendered text is not
  observable by any property below and is left inside `Verb.msg`).
* `url_for(route, **params)` becomes a `UrlCall` value recording the
  route, the whole params dict and the `call_index` query argument.
* `abort(404)` and an uncaught Python `IndexError` / `ValueError`
  become the corresponding `HandlerResult` constructors.
* Python `len(xs) - 1` is computed in `Int`, as in the source, so that
  an empty list gives `-1` and not the truncated `Nat` subtraction.
-/

/-- Roster entry of `data.legislators`. -/
structure Legislator where
  bioguide_id : String
  phone : String
  firstname : String
  lastname : String
deriving DecidableEq, Repr

/-- Campaign value `campaign['repIds']`, which the Python code allows to be
either a single string or a list of strings. -/
inductive StrOrList where
  | str (s : String)
  | list (l : List String)
deriving DecidableEq, Repr

/-- Python truthiness of a `str`-or-`list` value: `""` and `[]` are falsy. -/
def StrOrList.truthy : StrOrList → Bool
  | .str s => s ≠ ""
  | .list l => l ≠ []

/-- Normalisation done at app.py lines 82-85: a bare string becomes a
one-element list, a list is kept. -/
def StrOrList.toList : StrOrList → List String
  | .str s => [s]
  | .list l => l

/-- Campaign definition as read by `app.py`.  Keys the code always indexes
(`campaign['msg_intro']`, ...) are plain fields; keys the code tests for
presence (`'random_choice' in campaign`, `'voted_with_list' in campaign`,
`campaign.get('repIds')`, `campaign.get('msg_special_call_intro', ...)`,
`campaign.get('skip_star_confirm')`) are `Option`s or default-false flags. -/
structure Campaign where
  repIds : Option StrOrList := none
  random_choice : Option (List String) := none
  voted_with_list : Option (List String) := none
  skip_star_confirm : Bool := false
  msg_intro : String := ""
  msg_ask_zip : String := ""
  msg_invalid_zip : String := ""
  msg_call_block_intro : String := ""
  msg_rep_intro : String := ""
  msg_repo_intro_voted_with : String := ""
  msg_special_call_intro : Option String := none
  msg_between_thanks : String := ""
  msg_final_thanks : String := ""
  msg_intro_confirm : String := ""
  numbers : List String := []
deriving DecidableEq, Repr

/-- The values of an incoming webhook request that the handlers read:
`request.values.get('userPhone')`, `.get('campaignId', 'default')`,
`.get('zipcode', None)`, `.getlist('repIds')`, `.get('Digits', '')`,
`int(.get('call_index', 0))`. -/
structure Request where
  userPhone : Option String := none
  campaignId : Option String := none
  zipcode : Option String := none
  repIds : List String := []
  digits : Option String := none
  call_index : Option Nat := none
deriving DecidableEq, Repr

/-- The `params` dict built by `parse_params` and round-tripped through
callback URLs.  `zipcode = none` means the key was deleted
(`del params['zipcode']`); `zipcode = some none` means the key is present
with Python `None`. -/
structure Params where
  userPhone : Option String := none
  campaignId : String := "default"
  zipcode : Option (Option String) := some none
  repIds : List String := []
deriving DecidableEq, Repr

/-- Python truthiness of the value stored under the `zipcode` key
(`if params['zipcode']:` at app.py line 88): `None` and `""` are falsy. -/
def zipTruthy : Option String → Bool
  | none => false
  | some z => z ≠ ""

/-- Model of `random.choice(pool)` with explicit draw state `k`; meaningful
only for a non-empty pool (Python raises `IndexError` on an empty one). -/
def randomChoice (pool : List String) (k : Nat) : String :=
  pool.getD (k % pool.length) ""

/-- `parse_params` (app.py lines 66-100): build the params dict from the
request, look up the campaign (returning `(None, None)` when unknown),
let a campaign-level `repIds` override the client-supplied ones, replace
`repIds` by the zip resolver's output and delete the zipcode when a truthy
zipcode is present, and replace `repIds` by one random pool element when
the campaign has a `random_choice` key. -/
def parse_params (get_campaign : String → Option Campaign)
    (locate : String → Campaign → List String) (k : Nat)
    (r : Request) : Option (Params × Campaign) :=
  let params0 : Params :=
    { userPhone := r.userPhone
      campaignId := r.campaignId.getD "default"
      zipcode := some r.zipcode
      repIds := r.repIds }
  match get_campaign params0.campaignId with
  | none => none
  | some campaign =>
    let params1 :=
      match campaign.repIds with
      | some v => if v.truthy then { params0 with repIds := v.toList } else params0
      | none => params0
    let params2 :=
      if zipTruthy (params1.zipcode.getD none) then
        { params1 with
            repIds := locate ((params1.zipcode.getD none).getD "") campaign
            zipcode := none }
      else params1
    let params3 :=
      match campaign.random_choice with
      | some pool => { params2 with repIds := [randomChoice pool k] }
      | none => params2
    some (params3, campaign)

/-- The keyword arguments a handler feeds into `pystache.render` together
with the template (`play_or_say(resp, template, **kwds)`).  The rendered
text and the `play`/`say` dispatch on it stay abstract inside the verb. -/
inductive Msg where
  | plain (template : String)
  | withName (template : String) (name : String)
  | blockIntro (template : String) (n_reps : Nat) (many_reps : Bool)
deriving DecidableEq, Repr

/-- A callback URL built by `url_for(route, **params)`, possibly with an
extra `call_index` query argument (`url_for('make_single_call',
call_index=0, **params)`, or `params['call_index'] = i` before the call). -/
structure UrlCall where
  route : String
  params : Params
  call_index : Option Nat := none
deriving DecidableEq, Repr

/-- One twiml verb of the emitted instruction document. -/
inductive Verb where
  | msg (m : Msg)
  | gather (numDigits : Nat) (action : UrlCall) (inner : Msg)
  | redirect (target : UrlCall)
  | dial (number : String) (callerId : Option String) (action : UrlCall)
deriving DecidableEq, Repr

/-- Outcome of one webhook handler: a twiml document, an `abort(404)`,
or an uncaught Python exception (`IndexError` from `[..][i]`,
`ValueError` from `json.loads`). -/
inductive HandlerResult where
  | ok (resp : List Verb)
  | abort404
  | indexError
  | valueError
deriving DecidableEq, Repr

/-- `zip_gather` (app.py lines 111-116): append a 5-digit gather whose
action is `url_for("zip_parse", **params)` and which asks for the zip. -/
def zip_gather (resp : List Verb) (params : Params) (campaign : Campaign) :
    List Verb :=
  resp ++ [.gather 5 { route := "zip_parse", params := params }
             (.plain campaign.msg_ask_zip)]

/-- `intro_zip_gather` (app.py lines 103-108): the intro message followed
by the zip gather. -/
def intro_zip_gather (params : Params) (campaign : Campaign) : List Verb :=
  zip_gather [.msg (.plain campaign.msg_intro)] params campaign

/-- `make_calls` (app.py lines 119-134): the call-block intro message,
then a redirect to `make_single_call` with `call_index=0` and the whole
params dict in the URL. -/
def make_calls (params : Params) (campaign : Campaign) : List Verb :=
  let n_reps := params.repIds.length
  [ .msg (.blockIntro campaign.msg_call_block_intro n_reps (n_reps > 1)),
    .redirect { route := "make_single_call", params := params,
                call_index := some 0 } ]

/-- Route `/make_calls` (app.py lines 137-144): parse, abort 404 on an
unknown campaign, else emit `make_calls`. -/
def route_make_calls (get_campaign : String → Option Campaign)
    (locate : String → Campaign → List String) (k : Nat)
    (r : Request) : HandlerResult :=
  match parse_params get_campaign locate k r with
  | none => .abort404
  | some (params, campaign) => .ok (make_calls params campaign)

/-- Route `/incoming_call` (app.py lines 222-237). -/
def incoming_call (get_campaign : String → Option Campaign)
    (locate : String → Campaign → List String) (k : Nat)
    (r : Request) : HandlerResult :=
  match parse_params get_campaign locate k r with
  | none => .abort404
  | some (params, campaign) => .ok (intro_zip_gather params campaign)

/-- Route `/connection` (app.py lines 185-219): with a truthy (non-empty)
`repIds` list, play the intro and either redirect straight to
`/make_calls` (`skip_star_confirm`) or gather one confirmation digit with
`/make_calls` as action; with an empty list, fall into the
intro-plus-ask-zip gather. -/
def connection (get_campaign : String → Option Campaign)
    (locate : String → Campaign → List String) (k : Nat)
    (r : Request) : HandlerResult :=
  match parse_params get_campaign locate k r with
  | none => .abort404
  | some (params, campaign) =>
    if params.repIds ≠ [] then
      if campaign.skip_star_confirm then
        .ok [ .msg (.plain campaign.msg_intro),
              .redirect { route := "_make_calls", params := params } ]
      else
        .ok [ .msg (.plain campaign.msg_intro),
              .gather 1 { route := "_make_calls", params := params }
                (.plain campaign.msg_intro_confirm) ]
    else
      .ok (intro_zip_gather params campaign)

/-- Route `/zip_parse` (app.py lines 240-266): read the entered digits,
resolve them to member ids; on an empty resolution play the invalid-zip
message and gather the zip again; otherwise store the zipcode and the
resolved ids back into the params and emit `make_calls`. -/
def zip_parse (get_campaign : String → Option Campaign)
    (locate : String → Campaign → List String) (k : Nat)
    (r : Request) : HandlerResult :=
  match parse_params get_campaign locate k r with
  | none => .abort404
  | some (params, campaign) =>
    let zipcode := r.digits.getD ""
    let rep_ids := locate zipcode campaign
    if rep_ids = [] then
      .ok (zip_gather [.msg (.plain campaign.msg_invalid_zip)] params campaign)
    else
      .ok (make_calls
            { params with zipcode := some (some zipcode), repIds := rep_ids }
            campaign)

/-- The reserved special-call marker string. -/
def SPECIAL_MARKER : String := "SPECIAL_CALL_"

/-- Substring test on character lists: does `pat` start at some position
of the text? -/
def containsSub (pat : List Char) : List Char → Bool
  | [] => pat.isPrefixOf ([] : List Char)
  | c :: cs => pat.isPrefixOf (c :: cs) || containsSub pat cs

/-- Python `"SPECIAL_CALL_" in s`: the marker occurs somewhere in `s`. -/
def hasMarker (s : String) : Bool :=
  containsSub SPECIAL_MARKER.data s.data

/-- Remove every non-overlapping occurrence of `pat`, scanning left to
right; the fuel argument bounds the recursion (one unit per examined
character, so the text's length always suffices). -/
def stripSubAux (pat : List Char) : Nat → List Char → List Char
  | _, [] => []
  | 0, l => l
  | n + 1, c :: cs =>
    if pat.isPrefixOf (c :: cs) then
      stripSubAux pat n (List.drop (pat.length - 1) cs)
    else c :: stripSubAux pat n cs

/-- Python `s.replace("SPECIAL_CALL_", "")`: delete every non-overlapping
occurrence of the marker, left to right. -/
def stripMarker (s : String) : String :=
  ⟨stripSubAux SPECIAL_MARKER.data s.data.length s.data⟩

/-- The fields `json.loads` must produce from a special-call payload
(`special['number']`, `special['name']`). -/
structure SpecialPayload where
  number : String
  name : String
deriving DecidableEq, Repr

/-- Python membership test `x in l` for the optional
`campaign['voted_with_list']` (preceded by `'voted_with_list' in campaign`). -/
def votedWith (campaign : Campaign) (repId : String) : Bool :=
  match campaign.voted_with_list with
  | some l => repId ∈ l
  | none => false

/-- Core of `/make_single_call` (app.py lines 276-313), after
`parse_params` succeeded: with `i = int(request.values.get('call_index',
0))` stored back into the params, read `params['repIds'][i]`
(`IndexError` when out of range); a marker-carrying id is stripped and
decoded by `json.loads` (`decode`, `ValueError` when malformed), dialing
the embedded number with the special-call intro template when the
campaign defines one, else the plain rep intro; otherwise the first
roster entry with this bioguide id (`IndexError` when none) is dialed
with the voted-with or plain intro.  The dial action is
`url_for('call_complete', **params)` with `call_index = i`. -/
def make_single_call_core (decode : String → Option SpecialPayload)
    (legislators : List Legislator)
    (params : Params) (campaign : Campaign) (i : Nat) : HandlerResult :=
  match params.repIds.get? i with
  | none => .indexError
  | some repId =>
    let action : UrlCall :=
      { route := "call_complete", params := params, call_index := some i }
    if hasMarker repId then
      match decode (stripMarker repId) with
      | none => .valueError
      | some special =>
        .ok [ .msg (.withName
                (campaign.msg_special_call_intro.getD campaign.msg_rep_intro)
                special.name),
              .dial special.number params.userPhone action ]
    else
      match legislators.filter (fun l => l.bioguide_id == repId) with
      | [] => .indexError
      | member :: _ =>
        let full_name := member.firstname ++ " " ++ member.lastname
        let intro :=
          if votedWith campaign repId then campaign.msg_repo_intro_voted_with
          else campaign.msg_rep_intro
        .ok [ .msg (.withName intro full_name),
              .dial member.phone params.userPhone action ]

/-- Route `/make_single_call` (app.py lines 269-313). -/
def make_single_call (decode : String → Option SpecialPayload)
    (legislators : List Legislator)
    (get_campaign : String → Option Campaign)
    (locate : String → Campaign → List String) (k : Nat)
    (r : Request) : HandlerResult :=
  match parse_params get_campaign locate k r with
  | none => .abort404
  | some (params, campaign) =>
    make_single_call_core decode legislators params campaign
      (r.call_index.getD 0)

/-- Core of `/call_complete` (app.py lines 325-341), after `parse_params`
and the `log_call` write: with `i = int(request.values.get('call_index',
0))`, emit the final thanks when `i == len(repIds) - 1` (Python integer
arithmetic, so `-1` on an empty list), else the between thanks and a
redirect to `make_single_call` with `call_index = i + 1`. -/
def call_complete_core (params : Params) (campaign : Campaign) (i : Nat) :
    List Verb :=
  if (i : Int) = (params.repIds.length : Int) - 1 then
    [ .msg (.plain campaign.msg_final_thanks) ]
  else
    [ .msg (.plain campaign.msg_between_thanks),
      .redirect { route := "make_single_call", params := params,
                  call_index := some (i + 1) } ]

/-- Route `/call_complete` (app.py lines 316-341). -/
def call_complete (get_campaign : String → Option Campaign)
    (locate : String → Campaign → List String) (k : Nat)
    (r : Request) : HandlerResult :=
  match parse_params get_campaign locate k r with
  | none => .abort404
  | some (params, campaign) =>
    .ok (call_complete_core params campaign (r.call_index.getD 0))

/-- Outcome of `TW_CLIENT.calls.create` as observed by `/create`: either
a call object whose `status` string is reported, or a
`TwilioRestException` carrying the raw error text `err.msg`. -/
inductive TwilioOutcome where
  | success (status : String)
  | rejected (msg : String)
deriving DecidableEq, Repr

/-- An HTTP response of `/create`: status code plus the `message` field
of the jsonified body. -/
structure HttpResponse where
  status_code : Nat
  message : String
deriving DecidableEq, Repr

/-- Outcome of `/create` after the provider interaction: a structured
response, a 404 abort, or an uncaught `IndexError` (from
`err.msg.split(':')[1]` when the error text has no colon). -/
inductive CreateResult where
  | ok (resp : HttpResponse)
  | abort404
  | indexError
deriving DecidableEq, Repr

/-- Python `s.split(sep)` for a one-character separator, on character
lists: keeps empty segments, no maxsplit. -/
def splitOnChar (sep : Char) : List Char → List (List Char)
  | [] => [[]]
  | c :: cs =>
    if c = sep then [] :: splitOnChar sep cs
    else
      match splitOnChar sep cs with
      | [] => [[c]]
      | p :: ps => (c :: p) :: ps

/-- Python `s.split(':')`-style splitting of a string. -/
def pySplit (s : String) (sep : Char) : List String :=
  (splitOnChar sep s.data).map String.mk

/-- Python `s.strip()`: drop whitespace from both ends. -/
def pyStrip (s : String) : String :=
  ⟨((s.data.dropWhile Char.isWhitespace).reverse.dropWhile
      Char.isWhitespace).reverse⟩

/-- Core of `/create` (app.py lines 166-182): a created call reports its
provider status with HTTP 200, or 500 when that status is `'failed'`; a
`TwilioRestException` is answered with HTTP 200 and
`err.msg.split(':')[1].strip()` as message (an `IndexError` escapes when
the error text has fewer than two colon-delimited segments). -/
def call_user_core (outcome : TwilioOutcome) : CreateResult :=
  match outcome with
  | .success status =>
    .ok { status_code := if status ≠ "failed" then 200 else 500,
          message := status }
  | .rejected m =>
    match (pySplit m ':').get? 1 with
    | some seg => .ok { status_code := 200, message := pyStrip seg }
    | none => .indexError

/-- Route `/create` (app.py lines 147-182); the provider interaction is
the `outcome` oracle, a function of the parsed params. -/
def call_user (get_campaign : String → Option Campaign)
    (locate : String → Campaign → List String) (k : Nat)
    (outcome : Params → TwilioOutcome) (r : Request) : CreateResult :=
  match parse_params get_campaign locate k r with
  | none => .abort404
  | some (params, _campaign) => call_user_core (outcome params)

/-- Route `/call_complete_status` (app.py lines 344-357): a JSON echo of
the phone number, call status, repIds and campaignId; 404 when the
campaign is unknown. -/
inductive StatusResult where
  | ok (phoneNumber : String) (callStatus : String)
      (repIds : List String) (campaignId : String)
  | abort404
deriving DecidableEq, Repr

/-- `/call_complete_status` body; `To` and `CallStatus` are extra request
values echoed back. -/
def call_complete_status (get_campaign : String → Option Campaign)
    (locate : String → Campaign → List String) (k : Nat)
    (r : Request) (toVal : Option String) (callStatus : Option String) :
    StatusResult :=
  match parse_params get_campaign locate k r with
  | none => .abort404
  | some (params, _) =>
    .ok (toVal.getD "") (callStatus.getD "unknown") params.repIds
      params.campaignId

/-- The callback URLs referenced by a verb (gather action, redirect
target, dial action). -/
def Verb.urls : Verb → List UrlCall
  | .msg _ => []
  | .gather _ a _ => [a]
  | .redirect t => [t]
  | .dial _ _ a => [a]

/-- All callback URLs referenced by an instruction document. -/
def urlsOf (resp : List Verb) : List UrlCall :=
  (resp.map Verb.urls).flatten

/-- The action URL of the first `dial` verb of a document, if any. -/
def dialAction : List Verb → Option UrlCall
  | [] => none
  | .dial _ _ a :: _ => some a
  | _ :: vs => dialAction vs

/-- The target of the first `redirect` verb of a document, if any. -/
def redirectTarget : List Verb → Option UrlCall
  | [] => none
  | .redirect t :: _ => some t
  | _ :: vs => redirectTarget vs

/-- The spec's per-call states: about to emit leg `i`'s intro-and-dial
(`/make_single_call` with `call_index = i`), about to process leg `i`'s
completion (`/call_complete` with `call_index = i`), or terminated. -/
inductive FlowState where
  | singleCallIntro (i : Nat)
  | callLegComplete (i : Nat)
  | terminal
deriving DecidableEq, Repr

/-- The call-leg index carried by a state. -/
def FlowState.idx : FlowState → Nat
  | .singleCallIntro i => i
  | .callLegComplete i => i
  | .terminal => 0

/-- One provider-driven hop: follow the dial action emitted by
`make_single_call` (reaching that leg's completion callback), or the
redirect / absence of redirect emitted by `call_complete` (reaching the
next leg's intro, or termination when the response holds only the final
thanks). -/
def flowNext (decode : String → Option SpecialPayload)
    (legislators : List Legislator) (params : Params) (campaign : Campaign) :
    FlowState → Option FlowState
  | .singleCallIntro i =>
    match make_single_call_core decode legislators params campaign i with
    | .ok resp =>
      match dialAction resp with
      | some a => if a.route = "call_complete" then a.call_index.map .callLegComplete else none
      | none => none
    | _ => none
  | .callLegComplete i =>
    match redirectTarget (call_complete_core params campaign i) with
    | some t => if t.route = "make_single_call" then t.call_index.map .singleCallIntro else none
    | none => some .terminal
  | .terminal => none

/-- The run of `flowNext` from a state, for `n` further hops or until the
flow gets stuck. -/
def flowTrace (decode : String → Option SpecialPayload)
    (legislators : List Legislator) (params : Params) (campaign : Campaign) :
    Nat → FlowState → List FlowState
  | 0, s => [s]
  | n + 1, s =>
    s :: (match flowNext decode legislators params campaign s with
          | some t => flowTrace decode legislators params campaign n t
          | none => [])

/-- Reachability along `flowNext` hops. -/
def FlowReaches (decode : String → Option SpecialPayload)
    (legislators : List Legislator) (params : Params) (campaign : Campaign)
    (s t : FlowState) : Prop :=
  Relation.ReflTransGen
    (fun a b => flowNext decode legislators params campaign a = some b) s t


theorem randomChoice_mem (pool : List String) (k : Nat) (h : pool ≠ []) :
    randomChoice pool k ∈ pool := by
  have hlen : 0 < pool.length := List.length_pos.mpr h
  have hlt : k % pool.length < pool.length := Nat.mod_lt _ hlen
  rw [randomChoice, List.getD_eq_getElem _ _ hlt]
  exact List.getElem_mem hlt

theorem parse_params_unfold (gc : String → Option Campaign)
    (locate : String → Campaign → List String) (k : Nat) (r : Request) :
    parse_params gc locate k r =
      (gc (r.campaignId.getD "default")).map (fun campaign =>
        ({ userPhone := r.userPhone
           campaignId := r.campaignId.getD "default"
           zipcode := if zipTruthy r.zipcode then none else some r.zipcode
           repIds :=
             match campaign.random_choice with
             | some pool => [randomChoice pool k]
             | none =>
               if zipTruthy r.zipcode then locate (r.zipcode.getD "") campaign
               else
                 match campaign.repIds with
                 | some v => if v.truthy then v.toList else r.repIds
                 | none => r.repIds }, campaign)) := by
  unfold parse_params
  dsimp only
  cases hgc : gc (r.campaignId.getD "default") with
  | none => rfl
  | some campaign =>
    simp only [Option.map_some']
    cases h1 : campaign.repIds with
    | none =>
      by_cases hzt : zipTruthy r.zipcode = true <;>
        cases h3 : campaign.random_choice <;>
          simp [h1, h3, hzt]
    | some v =>
      by_cases htr : v.truthy = true <;>
        by_cases hzt : zipTruthy r.zipcode = true <;>
          cases h3 : campaign.random_choice <;>
            simp [h1, h3, htr, hzt]

theorem parse_params_found (gc : String → Option Campaign)
    (locate : String → Campaign → List String) (k : Nat) (r : Request)
    (params : Params) (campaign : Campaign)
    (hp : parse_params gc locate k r = some (params, campaign)) :
    gc (r.campaignId.getD "default") = some campaign := by
  rw [parse_params_unfold] at hp
  cases hgc : gc (r.campaignId.getD "default") with
  | none => rw [hgc] at hp; exact Option.noConfusion hp
  | some c =>
    rw [hgc] at hp
    simp only [Option.map_some', Option.some.injEq, Prod.mk.injEq] at hp
    rw [hp.2]

theorem parse_params_zip (gc : String → Option Campaign)
    (locate : String → Campaign → List String) (k : Nat) (r : Request)
    (z : String) (params : Params) (campaign : Campaign)
    (hz : r.zipcode = some z) (hz' : z ≠ "")
    (hp : parse_params gc locate k r = some (params, campaign)) :
    params.zipcode = none ∧
      (campaign.random_choice = none → params.repIds = locate z campaign) := by
  rw [parse_params_unfold] at hp
  cases hgc : gc (r.campaignId.getD "default") with
  | none => rw [hgc] at hp; exact Option.noConfusion hp
  | some c =>
    rw [hgc] at hp
    simp only [Option.map_some', Option.some.injEq, Prod.mk.injEq] at hp
    obtain ⟨hP, hC⟩ := hp
    subst hC
    have hzt : zipTruthy r.zipcode = true := by simp [hz, zipTruthy, hz']
    constructor
    · rw [← hP]
      simp [hzt]
    · intro hrc
      rw [← hP]
      simp [hrc, hz, zipTruthy, hz']

theorem parse_params_random (gc : String → Option Campaign)
    (locate : String → Campaign → List String) (k : Nat) (r : Request)
    (pool : List String) (params : Params) (campaign : Campaign)
    (hpool : campaign.random_choice = some pool)
    (hp : parse_params gc locate k r = some (params, campaign)) :
    params.repIds = [randomChoice pool k] := by
  rw [parse_params_unfold] at hp
  cases hgc : gc (r.campaignId.getD "default") with
  | none => rw [hgc] at hp; exact Option.noConfusion hp
  | some c =>
    rw [hgc] at hp
    simp only [Option.map_some', Option.some.injEq, Prod.mk.injEq] at hp
    obtain ⟨hP, hC⟩ := hp
    subst hC
    rw [← hP]
    simp [hpool]

theorem parse_params_total (gc : String → Option Campaign)
    (locate : String → Campaign → List String) (k : Nat) (r : Request)
    (campaign : Campaign)
    (hgc : gc (r.campaignId.getD "default") = some campaign) :
    ∃ params, parse_params gc locate k r = some (params, campaign) := by
  rw [parse_params_unfold, hgc]
  exact ⟨_, rfl⟩

theorem make_single_call_core_dialAction
    (decode : String → Option SpecialPayload) (legislators : List Legislator)
    (params : Params) (campaign : Campaign) (i : Nat) (resp : List Verb)
    (h : make_single_call_core decode legislators params campaign i = .ok resp) :
    dialAction resp =
      some { route := "call_complete", params := params, call_index := some i } := by
  unfold make_single_call_core at h
  split at h
  · exact absurd h (by simp)
  · split at h
    · split at h
      · exact absurd h (by simp)
      · cases h
        rfl
    · split at h
      · exact absurd h (by simp)
      · cases h
        rfl

/-- Concrete one-campaign directory used for concrete runs. -/
def gcW (c : Campaign) : String → Option Campaign :=
  fun cid => if cid = "default" then some c else none

/-- Concrete zip resolver: zip 94110 maps to one member, everything else
to none. -/
def locateW : String → Campaign → List String :=
  fun z _ => if z = "94110" then ["L00001"] else []

/-- Concrete special-call payload decoder for concrete runs. -/
def decodeW : String → Option SpecialPayload :=
  fun s => if s = "J" then some ⟨"+15550001111", "Jane"⟩ else none

/-- Concrete two-member roster for concrete runs. -/
def rosterW : List Legislator :=
  [⟨"L1", "555-1", "A", "B"⟩, ⟨"L2", "555-2", "C", "D"⟩]

theorem make_single_call_core_urls
    (decode : String → Option SpecialPayload) (legislators : List Legislator)
    (params : Params) (campaign : Campaign) (i : Nat) (resp : List Verb)
    (h : make_single_call_core decode legislators params campaign i = .ok resp) :
    ∀ u ∈ urlsOf resp,
      u = { route := "call_complete", params := params, call_index := some i } := by
  unfold make_single_call_core at h
  split at h
  · exact absurd h (by simp)
  · split at h
    · split at h
      · exact absurd h (by simp)
      · cases h
        simp [urlsOf, Verb.urls]
    · split at h
      · exact absurd h (by simp)
      · cases h
        simp [urlsOf, Verb.urls]

/-- C1 counterexample: after a successful zip resolution, `zip_parse`
stores the entered digits back into the params
(`params['zipcode'] = zipcode`, app.py line 263), so the redirect URL to
`make_single_call` does carry a zipcode key. -/
theorem C1_counterexample :
    zip_parse (gcW {}) locateW 0 { digits := some "94110" } =
      .ok [ .msg (.blockIntro "" 1 false),
            .redirect { route := "make_single_call",
                        params := { campaignId := "default",
                                    zipcode := some (some "94110"),
                                    repIds := ["L00001"] },
                        call_index := some 0 } ]
    ∧ (some (some "94110") : Option (Option String)) ≠ none := by decide

/-- C1 (amended): parse_params deletes a supplied zipcode, so the params
dict any handler derives from it — and hence every URL built from that
dict by `make_calls`, `make_single_call` and `call_complete` — carries no
zipcode key; only `zip_parse` itself re-attaches the entered digits to
the params it forwards, and the next parse removes them again. -/
theorem C1_amended_no_zip_after_parse (gc : String → Option Campaign)
    (locate : String → Campaign → List String) (k : Nat) (r : Request)
    (z : String) (params : Params) (campaign : Campaign)
    (decode : String → Option SpecialPayload) (legislators : List Legislator)
    (hz : r.zipcode = some z) (hz' : z ≠ "")
    (hp : parse_params gc locate k r = some (params, campaign)) :
    params.zipcode = none
    ∧ (∀ u ∈ urlsOf (make_calls params campaign), u.params.zipcode = none)
    ∧ (∀ i resp, make_single_call_core decode legislators params campaign i = .ok resp →
        ∀ u ∈ urlsOf resp, u.params.zipcode = none)
    ∧ (∀ i, ∀ u ∈ urlsOf (call_complete_core params campaign i),
        u.params.zipcode = none) := by
  have hzip := (parse_params_zip gc locate k r z params campaign hz hz' hp).1
  refine ⟨hzip, ?_, ?_, ?_⟩
  · intro u hu
    simp [make_calls, urlsOf, Verb.urls] at hu
    rw [hu, hzip]
  · intro i resp h u hu
    have := make_single_call_core_urls decode legislators params campaign i resp h u hu
    rw [this, hzip]
  · intro i u hu
    unfold call_complete_core at hu
    split at hu <;> simp [urlsOf, Verb.urls] at hu
    rw [hu, hzip]

/-- C1 amended witness at a concrete request carrying zip 94110. -/
theorem C1_amended_no_zip_after_parse_witness :
    ({ campaignId := "default", zipcode := none, repIds := ["L00001"] } : Params).zipcode = none
    ∧ (∀ u ∈ urlsOf (make_calls
          { campaignId := "default", zipcode := none, repIds := ["L00001"] } {}),
        u.params.zipcode = none)
    ∧ (∀ i resp, make_single_call_core decodeW rosterW
          { campaignId := "default", zipcode := none, repIds := ["L00001"] } {} i = .ok resp →
        ∀ u ∈ urlsOf resp, u.params.zipcode = none)
    ∧ (∀ i, ∀ u ∈ urlsOf (call_complete_core
          { campaignId := "default", zipcode := none, repIds := ["L00001"] } {} i),
        u.params.zipcode = none) :=
  C1_amended_no_zip_after_parse (gcW {}) locateW 0 { zipcode := some "94110" }
    "94110" { campaignId := "default", zipcode := none, repIds := ["L00001"] } {}
    decodeW rosterW rfl (by decide) (by decide)

/-- C2 counterexample: a provider rejection whose raw text is
`"Unable to create record: The From number is invalid"` is answered with
the segment at index 1 (`"The From number is invalid"`), not the first
colon-delimited segment (`"Unable to create record"`), refuting the
claim's description of the sanitisation. -/
theorem C2_counterexample :
    call_user (gcW {}) locateW 0
        (fun _ => .rejected "Unable to create record: The From number is invalid")
        { userPhone := some "+15551230000" } =
      .ok { status_code := 200, message := "The From number is invalid" }
    ∧ (pySplit "Unable to create record: The From number is invalid" ':').get? 0 =
        some "Unable to create record"
    ∧ "The From number is invalid" ≠ "Unable to create record" := by decide

/-- C2 (amended): for a found campaign, a provider-accepted call is
answered with its provider-reported status as message and HTTP 500
exactly when that status is `'failed'` (else 200); a provider rejection
is answered with HTTP 200 and the *second* colon-delimited segment
(index 1) of the raw error text, whitespace-stripped. -/
theorem C2_create_statuses (gc : String → Option Campaign)
    (locate : String → Campaign → List String) (k : Nat)
    (outcome : Params → TwilioOutcome) (r : Request)
    (params : Params) (campaign : Campaign)
    (hp : parse_params gc locate k r = some (params, campaign)) :
    (∀ status, outcome params = .success status →
        call_user gc locate k outcome r =
          .ok { status_code := if status ≠ "failed" then 200 else 500,
                message := status })
    ∧ (∀ m seg, outcome params = .rejected m →
        (pySplit m ':')[1]? = some seg →
        call_user gc locate k outcome r =
          .ok { status_code := 200, message := pyStrip seg }) := by
  constructor
  · intro status hs
    unfold call_user
    rw [hp]
    simp [call_user_core, hs]
  · intro m seg hm hseg
    unfold call_user
    rw [hp]
    simp [call_user_core, hm, hseg]

/-- C2 amended witness: concrete rejected and failed outcomes. -/
theorem C2_create_statuses_witness :
    (∀ status,
        (fun _ : Params =>
          TwilioOutcome.rejected "Err 21211: bad number")
          { campaignId := "default", zipcode := some none, repIds := [] } = .success status →
        call_user (gcW {}) locateW 0
          (fun _ => .rejected "Err 21211: bad number") {} =
          .ok { status_code := if status ≠ "failed" then 200 else 500,
                message := status })
    ∧ (∀ m seg,
        (fun _ : Params =>
          TwilioOutcome.rejected "Err 21211: bad number")
          { campaignId := "default", zipcode := some none, repIds := [] } = .rejected m →
        (pySplit m ':')[1]? = some seg →
        call_user (gcW {}) locateW 0
          (fun _ => .rejected "Err 21211: bad number") {} =
          .ok { status_code := 200, message := pyStrip seg }) :=
  C2_create_statuses (gcW {}) locateW 0
    (fun _ => .rejected "Err 21211: bad number") {}
    { campaignId := "default", zipcode := some none, repIds := [] } {} (by decide)

/-- C3 (code bug): a `/make_calls` request with an empty `repIds`
sequence is not aborted — `make_calls` emits the call-block intro and a
redirect to `make_single_call` with `call_index=0`, and the follow-up
`make_single_call` request then raises `IndexError` on `repIds[0]`
instead of a 404 abort. -/
theorem C3_empty_repIds_not_aborted :
    route_make_calls (gcW {}) locateW 0 { campaignId := some "default" } =
      .ok [ .msg (.blockIntro "" 0 false),
            .redirect { route := "make_single_call",
                        params := { campaignId := "default",
                                    zipcode := some none, repIds := [] },
                        call_index := some 0 } ]
    ∧ make_single_call decodeW rosterW (gcW {}) locateW 0
        { campaignId := some "default", call_index := some 0 } = .indexError := by
  decide

/-- C4: with `repIds = [A, B]` and both legs resolvable, the
provider-driven run visits SingleCallIntro(0), CallLegComplete(0),
SingleCallIntro(1), CallLegComplete(1) and then Terminal (final thanks,
no further redirect); every reachable state's leg index stays below
`len(repIds)`, and `make_single_call` always hands the *same* index to
the completion callback, so the index advances only in `call_complete`. -/
theorem C4_two_leg_state_machine (decode : String → Option SpecialPayload)
    (legislators : List Legislator) (params : Params) (campaign : Campaign)
    (a b : String) (r0 r1 : List Verb)
    (hreps : params.repIds = [a, b])
    (h0 : make_single_call_core decode legislators params campaign 0 = .ok r0)
    (h1 : make_single_call_core decode legislators params campaign 1 = .ok r1) :
    flowTrace decode legislators params campaign 4 (.singleCallIntro 0) =
      [.singleCallIntro 0, .callLegComplete 0, .singleCallIntro 1,
       .callLegComplete 1, .terminal]
    ∧ (∀ s, FlowReaches decode legislators params campaign (.singleCallIntro 0) s →
        s.idx + 1 ≤ params.repIds.length)
    ∧ (∀ i resp, make_single_call_core decode legislators params campaign i = .ok resp →
        dialAction resp =
          some { route := "call_complete", params := params, call_index := some i }) := by
  have d0 := make_single_call_core_dialAction decode legislators params campaign 0 r0 h0
  have d1 := make_single_call_core_dialAction decode legislators params campaign 1 r1 h1
  have step0 : flowNext decode legislators params campaign (.singleCallIntro 0) =
      some (.callLegComplete 0) := by
    simp [flowNext, h0, d0]
  have step1 : flowNext decode legislators params campaign (.singleCallIntro 1) =
      some (.callLegComplete 1) := by
    simp [flowNext, h1, d1]
  have stepC0 : flowNext decode legislators params campaign (.callLegComplete 0) =
      some (.singleCallIntro 1) := by
    simp [flowNext, call_complete_core, hreps, redirectTarget]
  have stepC1 : flowNext decode legislators params campaign (.callLegComplete 1) =
      some .terminal := by
    simp [flowNext, call_complete_core, hreps, redirectTarget]
  have stepT : flowNext decode legislators params campaign .terminal = none := rfl
  have hmem : ∀ s, FlowReaches decode legislators params campaign (.singleCallIntro 0) s →
      s ∈ [FlowState.singleCallIntro 0, .callLegComplete 0, .singleCallIntro 1,
           .callLegComplete 1, .terminal] := by
    intro s h
    unfold FlowReaches at h
    induction h with
    | refl => simp
    | tail hab hbc ih =>
      simp only [List.mem_cons, List.not_mem_nil, or_false] at ih
      rcases ih with rfl | rfl | rfl | rfl | rfl
      · rw [step0] at hbc
        cases hbc
        simp
      · rw [stepC0] at hbc
        cases hbc
        simp
      · rw [step1] at hbc
        cases hbc
        simp
      · rw [stepC1] at hbc
        cases hbc
        simp
      · rw [stepT] at hbc
        exact Option.noConfusion hbc
  refine ⟨?_, ?_, ?_⟩
  · simp [flowTrace, step0, stepC0, step1, stepC1, stepT]
  · intro s h
    have := hmem s h
    simp only [List.mem_cons, List.not_mem_nil, or_false] at this
    rcases this with rfl | rfl | rfl | rfl | rfl <;>
      simp [FlowState.idx, hreps]
  · intro i resp h
    exact make_single_call_core_dialAction decode legislators params campaign i resp h

/-- C4 witness at a concrete two-member roster. -/
theorem C4_two_leg_state_machine_witness :
    flowTrace decodeW rosterW { repIds := ["L1", "L2"] } {} 4 (.singleCallIntro 0) =
      [.singleCallIntro 0, .callLegComplete 0, .singleCallIntro 1,
       .callLegComplete 1, .terminal]
    ∧ (∀ s, FlowReaches decodeW rosterW { repIds := ["L1", "L2"] } {}
          (.singleCallIntro 0) s →
        s.idx + 1 ≤ ({ repIds := ["L1", "L2"] } : Params).repIds.length)
    ∧ (∀ i resp, make_single_call_core decodeW rosterW
          { repIds := ["L1", "L2"] } {} i = .ok resp →
        dialAction resp =
          some { route := "call_complete", params := { repIds := ["L1", "L2"] },
                 call_index := some i }) :=
  C4_two_leg_state_machine decodeW rosterW { repIds := ["L1", "L2"] } {} "L1" "L2"
    [ .msg (.withName "" "A B"),
      .dial "555-1" none { route := "call_complete",
                           params := { repIds := ["L1", "L2"] },
                           call_index := some 0 } ]
    [ .msg (.withName "" "C D"),
      .dial "555-2" none { route := "call_complete",
                           params := { repIds := ["L1", "L2"] },
                           call_index := some 1 } ]
    rfl (by decide) (by decide)

/-- C5: with a non-empty `random_choice` pool, every parse of a request
for that campaign yields a one-element `repIds` drawn from the pool, the
element being re-drawn on every parse; with at least two distinct pool
elements, two parses of the *same* request can yield different
representatives. -/
theorem C5_random_choice_pool (gc : String → Option Campaign)
    (locate : String → Campaign → List String) (r : Request)
    (campaign : Campaign) (pool : List String)
    (hgc : gc (r.campaignId.getD "default") = some campaign)
    (hpool : campaign.random_choice = some pool) (hne : pool ≠ []) :
    (∀ k, ∃ params, parse_params gc locate k r = some (params, campaign)
        ∧ params.repIds = [randomChoice pool k]
        ∧ randomChoice pool k ∈ pool)
    ∧ (pool.Nodup → 2 ≤ pool.length →
        ∃ k₁ k₂ p₁ p₂, parse_params gc locate k₁ r = some (p₁, campaign)
          ∧ parse_params gc locate k₂ r = some (p₂, campaign)
          ∧ p₁.repIds ≠ p₂.repIds) := by
  have hall : ∀ k, ∃ params, parse_params gc locate k r = some (params, campaign)
      ∧ params.repIds = [randomChoice pool k]
      ∧ randomChoice pool k ∈ pool := by
    intro k
    obtain ⟨params, hp⟩ := parse_params_total gc locate k r campaign hgc
    exact ⟨params, hp,
      parse_params_random gc locate k r pool params campaign hpool hp,
      randomChoice_mem pool k hne⟩
  refine ⟨hall, ?_⟩
  intro hnd hlen
  obtain ⟨p₁, hp₁, hr₁, _⟩ := hall 0
  obtain ⟨p₂, hp₂, hr₂, _⟩ := hall 1
  refine ⟨0, 1, p₁, p₂, hp₁, hp₂, ?_⟩
  rw [hr₁, hr₂]
  have h0 : 0 % pool.length = 0 := Nat.zero_mod _
  have h1 : 1 % pool.length = 1 := Nat.mod_eq_of_lt (by omega)
  have hb0 : 0 < pool.length := by omega
  have hb1 : 1 < pool.length := by omega
  have : pool.getD (0 % pool.length) "" ≠ pool.getD (1 % pool.length) "" := by
    rw [h0, h1, List.getD_eq_getElem _ _ hb0, List.getD_eq_getElem _ _ hb1]
    intro hEq
    have := (List.Nodup.getElem_inj_iff hnd).mp hEq
    omega
  simp only [randomChoice, ne_eq, List.cons.injEq, and_true]
  exact this

/-- C5 witness: a two-element pool on the default campaign. -/
theorem C5_random_choice_pool_witness :
    (∀ k, ∃ params, parse_params (gcW { random_choice := some ["A", "B"] })
          locateW k {} = some (params, { random_choice := some ["A", "B"] })
        ∧ params.repIds = [randomChoice ["A", "B"] k]
        ∧ randomChoice ["A", "B"] k ∈ ["A", "B"])
    ∧ ((["A", "B"] : List String).Nodup → 2 ≤ (["A", "B"] : List String).length →
        ∃ k₁ k₂ p₁ p₂,
          parse_params (gcW { random_choice := some ["A", "B"] }) locateW k₁ {} =
            some (p₁, { random_choice := some ["A", "B"] })
          ∧ parse_params (gcW { random_choice := some ["A", "B"] }) locateW k₂ {} =
            some (p₂, { random_choice := some ["A", "B"] })
          ∧ p₁.repIds ≠ p₂.repIds) :=
  C5_random_choice_pool (gcW { random_choice := some ["A", "B"] }) locateW {}
    { random_choice := some ["A", "B"] } ["A", "B"] (by decide) rfl (by decide)

/-- C6 counterexample: with a zipcode supplied *and* a `random_choice`
pool defined, the parsed `repIds` are the random pool element, not the
resolver's output for the zip, refuting the claim's unconditional
equality. -/
theorem C6_counterexample :
    parse_params (gcW { random_choice := some ["X"] })
        (fun z _ => if z = "94110" then ["Y"] else []) 0
        { zipcode := some "94110" } =
      some ({ campaignId := "default", zipcode := none, repIds := ["X"] },
            { random_choice := some ["X"] })
    ∧ (fun z (_ : Campaign) => if z = "94110" then ["Y"] else []) "94110"
        { random_choice := some ["X"] } = ["Y"]
    ∧ (["X"] : List String) ≠ ["Y"] := by decide

/-- C6 (amended): when a zipcode is supplied and the campaign is found,
the parsed params never retain a zipcode key, and — provided the campaign
defines no `random_choice` pool — `repIds` equal the resolver's output
for that zip and campaign. -/
theorem C6_zip_resolution (gc : String → Option Campaign)
    (locate : String → Campaign → List String) (k : Nat) (r : Request)
    (z : String) (params : Params) (campaign : Campaign)
    (hz : r.zipcode = some z) (hz' : z ≠ "")
    (hp : parse_params gc locate k r = some (params, campaign)) :
    params.zipcode = none ∧
      (campaign.random_choice = none → params.repIds = locate z campaign) :=
  parse_params_zip gc locate k r z params campaign hz hz' hp

/-- C6 amended witness at zip 94110 on the default campaign. -/
theorem C6_zip_resolution_witness :
    ({ campaignId := "default", zipcode := none, repIds := ["L00001"] } : Params).zipcode = none
    ∧ (({} : Campaign).random_choice = none →
        ({ campaignId := "default", zipcode := none, repIds := ["L00001"] } : Params).repIds =
          locateW "94110" {}) :=
  C6_zip_resolution (gcW {}) locateW 0 { zipcode := some "94110" } "94110"
    { campaignId := "default", zipcode := none, repIds := ["L00001"] } {}
    rfl (by decide) (by decide)

/-- C7: a call leg whose rep id carries the special-call marker with a
payload the decoder accepts dials the embedded number under the embedded
name, with the campaign's special-call intro template when defined and
the plain rep intro otherwise; the roster plays no part (the conclusion
holds for every `legislators` list). -/
theorem C7_special_call (decode : String → Option SpecialPayload)
    (legislators : List Legislator) (params : Params) (campaign : Campaign)
    (i : Nat) (repId : String) (special : SpecialPayload)
    (hrep : params.repIds.get? i = some repId)
    (hm : hasMarker repId = true)
    (hdec : decode (stripMarker repId) = some special) :
    make_single_call_core decode legislators params campaign i =
      .ok [ .msg (.withName
              (campaign.msg_special_call_intro.getD campaign.msg_rep_intro)
              special.name),
            .dial special.number params.userPhone
              { route := "call_complete", params := params,
                call_index := some i } ] := by
  unfold make_single_call_core
  rw [hrep]
  simp [hm, hdec]

/-- C7 witness: the token `SPECIAL_CALL_J` decoding to Jane's number. -/
theorem C7_special_call_witness :
    make_single_call_core decodeW rosterW
        { repIds := ["SPECIAL_CALL_J"] } { msg_special_call_intro := some "SC" } 0 =
      .ok [ .msg (.withName "SC" "Jane"),
            .dial "+15550001111" none
              { route := "call_complete",
                params := { repIds := ["SPECIAL_CALL_J"] },
                call_index := some 0 } ] :=
  C7_special_call decodeW rosterW { repIds := ["SPECIAL_CALL_J"] }
    { msg_special_call_intro := some "SC" } 0 "SPECIAL_CALL_J"
    ⟨"+15550001111", "Jane"⟩ rfl (by decide) (by decide)

/-- C8: an unknown campaign id makes `parse_params` return `(None, None)`
and every webhook handler that calls it abort with 404, performing no
partial processing. -/
theorem C8_unknown_campaign (gc : String → Option Campaign)
    (locate : String → Campaign → List String) (k : Nat) (r : Request)
    (decode : String → Option SpecialPayload) (legislators : List Legislator)
    (outcome : Params → TwilioOutcome) (toV cs : Option String)
    (h : gc (r.campaignId.getD "default") = none) :
    parse_params gc locate k r = none
    ∧ route_make_calls gc locate k r = .abort404
    ∧ call_user gc locate k outcome r = .abort404
    ∧ connection gc locate k r = .abort404
    ∧ incoming_call gc locate k r = .abort404
    ∧ zip_parse gc locate k r = .abort404
    ∧ make_single_call decode legislators gc locate k r = .abort404
    ∧ call_complete gc locate k r = .abort404
    ∧ call_complete_status gc locate k r toV cs = .abort404 := by
  have hp : parse_params gc locate k r = none := by
    rw [parse_params_unfold, h]
    rfl
  refine ⟨hp, ?_, ?_, ?_, ?_, ?_, ?_, ?_, ?_⟩ <;>
    simp [route_make_calls, call_user, connection, incoming_call, zip_parse,
          make_single_call, call_complete, call_complete_status, hp]

/-- C8 witness: the empty campaign directory rejects every request. -/
theorem C8_unknown_campaign_witness :
    parse_params (fun _ => none) locateW 0 { campaignId := some "nope" } = none
    ∧ route_make_calls (fun _ => none) locateW 0 { campaignId := some "nope" } = .abort404
    ∧ call_user (fun _ => none) locateW 0 (fun _ => .success "queued")
        { campaignId := some "nope" } = .abort404
    ∧ connection (fun _ => none) locateW 0 { campaignId := some "nope" } = .abort404
    ∧ incoming_call (fun _ => none) locateW 0 { campaignId := some "nope" } = .abort404
    ∧ zip_parse (fun _ => none) locateW 0 { campaignId := some "nope" } = .abort404
    ∧ make_single_call decodeW rosterW (fun _ => none) locateW 0
        { campaignId := some "nope" } = .abort404
    ∧ call_complete (fun _ => none) locateW 0 { campaignId := some "nope" } = .abort404
    ∧ call_complete_status (fun _ => none) locateW 0 { campaignId := some "nope" }
        (some "+15551230000") (some "completed") = .abort404 :=
  C8_unknown_campaign (fun _ => none) locateW 0 { campaignId := some "nope" }
    decodeW rosterW (fun _ => .success "queued") (some "+15551230000")
    (some "completed") rfl

/-- C9: digits resolving to an empty member list make `zip_parse` emit
the invalid-zip message followed by a fresh 5-digit zip gather looping
back to `zip_parse` with the unchanged params — a document containing no
dial, no redirect and no call-index. -/
theorem C9_invalid_zip_reprompt (gc : String → Option Campaign)
    (locate : String → Campaign → List String) (k : Nat) (r : Request)
    (params : Params) (campaign : Campaign)
    (hp : parse_params gc locate k r = some (params, campaign))
    (hempty : locate (r.digits.getD "") campaign = []) :
    zip_parse gc locate k r =
      .ok (zip_gather [.msg (.plain campaign.msg_invalid_zip)] params campaign)
    ∧ zip_gather [.msg (.plain campaign.msg_invalid_zip)] params campaign =
        [ .msg (.plain campaign.msg_invalid_zip),
          .gather 5 { route := "zip_parse", params := params, call_index := none }
            (.plain campaign.msg_ask_zip) ]
    ∧ (∀ n cid a_, Verb.dial n cid a_ ∉
        zip_gather [.msg (.plain campaign.msg_invalid_zip)] params campaign)
    ∧ (∀ t, Verb.redirect t ∉
        zip_gather [.msg (.plain campaign.msg_invalid_zip)] params campaign)
    ∧ (∀ u ∈ urlsOf (zip_gather [.msg (.plain campaign.msg_invalid_zip)] params campaign),
        u.route = "zip_parse" ∧ u.params = params ∧ u.call_index = none) := by
  refine ⟨?_, rfl, ?_, ?_, ?_⟩
  · unfold zip_parse
    rw [hp]
    simp [hempty]
  · intro n cid a_
    simp [zip_gather]
  · intro t
    simp [zip_gather]
  · intro u hu
    simp [zip_gather, urlsOf, Verb.urls] at hu
    simp [hu]

/-- C9 witness: digits 00000 resolve to nobody on the default campaign. -/
theorem C9_invalid_zip_reprompt_witness :
    zip_parse (gcW {}) locateW 0 { digits := some "00000" } =
      .ok (zip_gather [.msg (.plain ({} : Campaign).msg_invalid_zip)]
            { campaignId := "default", zipcode := some none, repIds := [] } {})
    ∧ zip_gather [.msg (.plain ({} : Campaign).msg_invalid_zip)]
        { campaignId := "default", zipcode := some none, repIds := [] } {} =
        [ .msg (.plain ({} : Campaign).msg_invalid_zip),
          .gather 5 { route := "zip_parse",
                      params := { campaignId := "default", zipcode := some none,
                                  repIds := [] },
                      call_index := none }
            (.plain ({} : Campaign).msg_ask_zip) ]
    ∧ (∀ n cid a_, Verb.dial n cid a_ ∉
        zip_gather [.msg (.plain ({} : Campaign).msg_invalid_zip)]
          { campaignId := "default", zipcode := some none, repIds := [] } {})
    ∧ (∀ t, Verb.redirect t ∉
        zip_gather [.msg (.plain ({} : Campaign).msg_invalid_zip)]
          { campaignId := "default", zipcode := some none, repIds := [] } {})
    ∧ (∀ u ∈ urlsOf (zip_gather [.msg (.plain ({} : Campaign).msg_invalid_zip)]
          { campaignId := "default", zipcode := some none, repIds := [] } {}),
        u.route = "zip_parse"
        ∧ u.params = { campaignId := "default", zipcode := some none, repIds := [] }
        ∧ u.call_index = none) :=
  C9_invalid_zip_reprompt (gcW {}) locateW 0 { digits := some "00000" }
    { campaignId := "default", zipcode := some none, repIds := [] } {}
    (by decide) (by decide)

/-- C10: `/connection` branches on the *non-emptiness* of the parsed
`repIds` list: an empty list always receives the intro-plus-ask-zip
gather document, whose only callback URL targets `zip_parse` — never the
confirm gather or the `/make_calls` redirect. -/
theorem C10_connection_empty_repIds (gc : String → Option Campaign)
    (locate : String → Campaign → List String) (k : Nat) (r : Request)
    (params : Params) (campaign : Campaign)
    (hp : parse_params gc locate k r = some (params, campaign))
    (hempty : params.repIds = []) :
    connection gc locate k r = .ok (intro_zip_gather params campaign)
    ∧ intro_zip_gather params campaign =
        [ .msg (.plain campaign.msg_intro),
          .gather 5 { route := "zip_parse", params := params, call_index := none }
            (.plain campaign.msg_ask_zip) ]
    ∧ (∀ t, Verb.redirect t ∉ intro_zip_gather params campaign)
    ∧ (∀ n cid a_, Verb.dial n cid a_ ∉ intro_zip_gather params campaign)
    ∧ (∀ u ∈ urlsOf (intro_zip_gather params campaign), u.route = "zip_parse") := by
  refine ⟨?_, rfl, ?_, ?_, ?_⟩
  · unfold connection
    rw [hp]
    simp [hempty]
  · intro t
    simp [intro_zip_gather, zip_gather]
  · intro n cid a_
    simp [intro_zip_gather, zip_gather]
  · intro u hu
    simp [intro_zip_gather, zip_gather, urlsOf, Verb.urls] at hu
    simp [hu]

/-- C10 witness: a bare request on the default campaign has empty repIds
and lands on the zip-collection path. -/
theorem C10_connection_empty_repIds_witness :
    connection (gcW {}) locateW 0 {} =
      .ok (intro_zip_gather
            { campaignId := "default", zipcode := some none, repIds := [] } {})
    ∧ intro_zip_gather
        { campaignId := "default", zipcode := some none, repIds := [] } {} =
        [ .msg (.plain ({} : Campaign).msg_intro),
          .gather 5 { route := "zip_parse",
                      params := { campaignId := "default", zipcode := some none,
                                  repIds := [] },
                      call_index := none }
            (.plain ({} : Campaign).msg_ask_zip) ]
    ∧ (∀ t, Verb.redirect t ∉ intro_zip_gather
        { campaignId := "default", zipcode := some none, repIds := [] } {})
    ∧ (∀ n cid a_, Verb.dial n cid a_ ∉ intro_zip_gather
        { campaignId := "default", zipcode := some none, repIds := [] } {})
    ∧ (∀ u ∈ urlsOf (intro_zip_gather
        { campaignId := "default", zipcode := some none, repIds := [] } {}),
        u.route = "zip_parse") :=
  C10_connection_empty_repIds (gcW {}) locateW 0 {}
    { campaignId := "default", zipcode := some none, repIds := [] } {}
    (by decide) (by decide)
